import Mathlib

/-!
Shallow embedding of the KVM hypervisor driver `lib/hypervisor/hv_kvm.py`
(class `KVMHypervisor`).

The driver is a stateless tool: every operation re-derives truth from the
filesystem (PID files) and OS process introspection, and acts through a small
utility layer (`utils.ReadPidFile`, `utils.IsProcessAlive`, `utils.RunCmd`,
`utils.KillProcess`, `utils.RemoveFile`).  That utility layer and the host
`/proc` files are external collaborators: we embed them as explicit oracle
values (`Sys`, `StartOracle`, `StopOracle`, file contents passed as
arguments), and we record the driver's own side effects as an explicit
`Event` trace.  Python exceptions become an error type `PyErr`; Python `%`
string formatting — including its arity errors — is embedded by `pyFormat`.
-/

set_option linter.unusedVariables false

namespace HvKvm

/-- Python exception values that the embedded code paths can raise.
`hypervisorError` is `ganeti.errors.HypervisorError`; the remaining
constructors are Python builtin exceptions. -/
inductive PyErr where
  | hypervisorError (msg : String)
  | typeError (msg : String)
  | indexError
  | valueError
  deriving DecidableEq

/-- Value of `constants.RUN_GANETI_DIR` (from the ganeti `constants` module,
which is not part of the two source files); the concrete value is irrelevant
to every claim, only its fixed leading character matters for disambiguating
argv tokens. -/
def RUN_GANETI_DIR : String := "/var/run/ganeti"

/-- Value of `constants.KVM_PATH` (ganeti `constants` module). -/
def KVM_PATH : String := "/usr/bin/kvm"

/-- `KVMHypervisor._ROOT_DIR = constants.RUN_GANETI_DIR + "/kvm-hypervisor"`. -/
def ROOT_DIR : String := RUN_GANETI_DIR ++ "/kvm-hypervisor"

/-- `KVMHypervisor._PIDS_DIR = _ROOT_DIR + "/pid"`. -/
def PIDS_DIR : String := ROOT_DIR ++ "/pid"

/-- `KVMHypervisor._CTRL_DIR = _ROOT_DIR + "/ctrl"`. -/
def CTRL_DIR : String := ROOT_DIR ++ "/ctrl"

/-- Worker for `pyFormat`, walking the format string's characters.  Every
format string in the source uses only `%s` conversions, so a `%` is always
followed by `s` and consumes one argument. -/
def pyFormatAux : List Char → List String → Except PyErr (List Char)
  | [], [] => .ok []
  | [], _ :: _ =>
    .error (.typeError "not all arguments converted during string formatting")
  | '%' :: 's' :: restFmt, args =>
    match args with
    | [] => .error (.typeError "not enough arguments for format string")
    | a :: args2 =>
      match pyFormatAux restFmt args2 with
      | .ok cs => .ok (a.data ++ cs)
      | .error e => .error e
  | c :: restFmt, args =>
    match pyFormatAux restFmt args with
    | .ok cs => .ok (c :: cs)
    | .error e => .error e

/-- Python 2 `%` formatting of a format string containing only `%s`
conversions against an argument tuple.  When the format has more `%s` holes
than there are arguments, Python raises
`TypeError: not enough arguments for format string`; with fewer holes it
raises `TypeError: not all arguments converted ...`.  A source expression
`fmt % (a)` (parentheses around a single value do not build a tuple) is
embedded as `pyFormat fmt [a]`, and `fmt % (a, b)` as `pyFormat fmt [a, b]`. -/
def pyFormat (fmt : String) (args : List String) : Except PyErr String :=
  match pyFormatAux fmt.data args with
  | .ok cs => .ok (String.mk cs)
  | .error e => .error e

/-- Embedding of a source statement `raise errors.HypervisorError(fmt % args)`:
if the format application itself raises `TypeError`, that `TypeError` is what
propagates; otherwise the `HypervisorError` with the formatted message. -/
def pyRaiseHV (fmt : String) (args : List String) : PyErr :=
  match pyFormat fmt args with
  | .ok msg => .hypervisorError msg
  | .error e => e

/-- Python 2 `TypeError` raised when a method is called with the wrong number
of positional arguments (counts include `self`). -/
def pyArityError (method : String) (expected given : Nat) : PyErr :=
  .typeError (method ++ "() takes exactly " ++ toString expected ++
    " arguments (" ++ toString given ++ " given)")

/-- A NIC object, as read by `_WriteNetScript` and `StartInstance`. -/
structure Nic where
  mac : String
  ip : String
  bridge : String
  deriving DecidableEq

/-- The hypervisor parameters of an instance (`inst.hvparams`), restricted
to `KVMHypervisor.PARAMETERS = [HV_KERNEL_PATH, HV_INITRD_PATH, HV_ACPI]`.
A missing/`None` kernel or initrd path is embedded as `""` (both are falsy in
the Python truth tests the source performs on them). -/
structure HvParams where
  kernel_path : String
  initrd_path : String
  acpi : Bool
  deriving DecidableEq

/-- An instance object, restricted to the fields `hv_kvm.py` reads.
`memory` and `vcpus` are the backend parameters `beparams[BE_MEMORY]` and
`beparams[BE_VCPUS]`; they are opaque scalar values that the driver only ever
splices into the argument vector, so they are embedded as strings. -/
structure Instance where
  name : String
  memory : String
  vcpus : String
  hvparams : HvParams
  nics : List Nic
  deriving DecidableEq

/-- One element of the `block_devices` list: the source only reads
`rldev.dev_path` (the resolved host-side path) of each `(cfdev, rldev)` pair. -/
structure BlockDev where
  dev_path : String
  deriving DecidableEq

/-- Result object of `utils.RunCmd`. -/
structure CmdResult where
  failed : Bool
  fail_reason : String
  output : String

/-- The observable OS state the driver reads through the utility layer:
`utils.ReadPidFile` (0 when the file is absent or unreadable) and
`utils.IsProcessAlive`. -/
structure Sys where
  readPid : String → Int
  alive : Int → Bool

/-- External outcomes of a `StartInstance` run: the fresh temporary file names
handed out by successive `tempfile.mkstemp` calls inside `_WriteNetScript`,
the result object of `utils.RunCmd(kvm_cmd)`, and the OS state observed after
that command has returned. -/
structure StartOracle where
  tempName : Nat → String
  runResult : CmdResult
  afterRun : Sys

/-- External outcomes of a `StopInstance` run: the OS state after
`utils.KillProcess(pid)` returns, and the result object plus posterior OS
state of the `system_powerdown` shell command. -/
structure StopOracle where
  afterKill : Sys
  socatResult : CmdResult
  afterSocat : Sys

/-- Driver-side effects, in program order.  `writeScript` is the creation of
one network wiring script by `_WriteNetScript`; `runCmd` is
`utils.RunCmd(kvm_cmd)`; `runShell` is `utils.RunCmd` of a shell string;
`kill` is `utils.KillProcess`; `removeFile` is `utils.RemoveFile`. -/
inductive Event where
  | writeScript (path : String)
  | runCmd (argv : List String)
  | runShell (cmd : String)
  | kill (pid : Int)
  | removeFile (path : String)
  deriving DecidableEq

/-- The PID file path of an instance: the source spells it both as
`"%s/%s" % (self._PIDS_DIR, instance_name)` and as
`self._PIDS_DIR + "/%s" % inst.name`, which denote the same string. -/
def pidPath (name : String) : String := PIDS_DIR ++ "/" ++ name

/-- The per-nic loop body of `StartInstance` (lines 195-203): for each NIC, in
list order, `_WriteNetScript` creates one wiring script at a fresh temporary
path (`tempName seq` for the seq-th script) and two `-net` directives are
appended — the front-end device and the tap device bound to the script.
Returns the argv fragment together with the accumulated `temp_files` list.
The script's shell content is written to the file and never read back by the
driver, so only the path is tracked here. -/
def netGo (tempName : Nat → String) : List Nic → Nat → List String × List String
  | [], _ => ([], [])
  | nic :: rest, seq =>
    let script := tempName seq
    let nic_val := "nic,macaddr=" ++ nic.mac ++ ",model=virtio"
    let tail := netGo tempName rest (seq + 1)
    (["-net", nic_val, "-net", "tap,script=" ++ script] ++ tail.1, script :: tail.2)

/-- Network part of the launch argv (lines 192-203): an explicit
`-net none` when the NIC list is empty, otherwise the per-NIC directive
pairs.  Second component: the `temp_files` created. -/
def buildNetArgsFiles (nics : List Nic) (tempName : Nat → String) :
    List String × List String :=
  if nics.isEmpty then (["-net", "none"], []) else netGo tempName nics 0

/-- Disk part of the launch argv (lines 205-218): one `-drive` directive per
block device, with `boot=on` appended while the `boot_drive` flag is still
set, i.e. exactly for the first device. -/
def driveArgs : Bool → List BlockDev → List String
  | _, [] => []
  | boot_drive, bd :: rest =>
    let boot_val := if boot_drive then ",boot=on" else ""
    ["-drive", "file=" ++ bd.dev_path ++ ",format=raw,if=virtio" ++ boot_val] ++
      driveArgs false rest

/-- The full `kvm_cmd` argument vector built by `StartInstance`
(lines 182-240), in source order. -/
def buildKvmCmd (inst : Instance) (block_devices : List BlockDev)
    (tempName : Nat → String) : List String :=
  let pidfile := pidPath inst.name
  let base_control := CTRL_DIR ++ "/" ++ inst.name
  [KVM_PATH, "-m", inst.memory, "-smp", inst.vcpus,
   "-pidfile", pidfile, "-name", inst.name, "-daemonize"] ++
  (if !inst.hvparams.acpi then ["-no-acpi"] else []) ++
  (buildNetArgsFiles inst.nics tempName).1 ++
  driveArgs true block_devices ++
  ["-kernel", inst.hvparams.kernel_path] ++
  (if inst.hvparams.initrd_path = "" then []
   else ["-initrd", inst.hvparams.initrd_path]) ++
  ["-append", "console=ttyS0,38400 root=/dev/vda", "-nographic",
   "-monitor", "unix:" ++ base_control ++ ".monitor,server,nowait",
   "-serial", "unix:" ++ base_control ++ ".serial,server,nowait"]

/-- `KVMHypervisor.StartInstance` (lines 172-253).  Returns the Python
outcome (normal return or exception) and the trace of driver-side effects.
Notable source details embedded faithfully: the already-running check happens
before any script is written or command run; the post-launch liveness
re-check raises via `"... %s: %s" % (inst.name)` — a two-hole format
applied to a single argument; the wiring scripts are deleted only on the
all-success path. -/
def StartInstance (sys : Sys) (o : StartOracle) (inst : Instance)
    (block_devices : List BlockDev) (extra_args : Option String) :
    Except PyErr Unit × List Event :=
  let pidfile := pidPath inst.name
  if sys.alive (sys.readPid pidfile) then
    (.error (pyRaiseHV "Failed to start instance %s: %s"
      [inst.name, "already running"]), [])
  else
    let temp_files := (buildNetArgsFiles inst.nics o.tempName).2
    let kvm_cmd := buildKvmCmd inst block_devices o.tempName
    let ev0 := temp_files.map Event.writeScript ++ [Event.runCmd kvm_cmd]
    if o.runResult.failed then
      (.error (pyRaiseHV "Failed to start instance %s: %s (%s)"
        [inst.name, o.runResult.fail_reason, o.runResult.output]), ev0)
    else if !(o.afterRun.alive (o.afterRun.readPid pidfile)) then
      (.error (pyRaiseHV "Failed to start instance %s: %s" [inst.name]), ev0)
    else
      (.ok (), ev0 ++ temp_files.map Event.removeFile)

/-- The instance's monitor control endpoint,
`'%s/%s.monitor' % (self._CTRL_DIR, instance.name)` (line 266). -/
def monitorSocket (name : String) : String :=
  CTRL_DIR ++ "/" ++ name ++ ".monitor"

/-- The graceful-shutdown shell command of `StopInstance` (lines 267-268). -/
def powerdownCommand (name : String) : String :=
  "echo 'system_powerdown' | " ++
    ("socat -u STDIN UNIX-CONNECT:" ++ monitorSocket name)

/-- `KVMHypervisor.StopInstance` (lines 255-275).  The trailing stale-PID-file
cleanup (`if not utils.IsProcessAlive(pid): utils.RemoveFile(pid_file)`) runs
on every path that does not raise. -/
def StopInstance (sys : Sys) (o : StopOracle) (inst : Instance)
    (force : Bool) : Except PyErr Unit × List Event :=
  let pid_file := pidPath inst.name
  let pid := sys.readPid pid_file
  if pid > 0 && sys.alive pid then
    if force || !inst.hvparams.acpi then
      if !(o.afterKill.alive pid) then
        (.ok (), [Event.kill pid, Event.removeFile pid_file])
      else
        (.ok (), [Event.kill pid])
    else
      if o.socatResult.failed then
        (.error (pyRaiseHV "Failed to stop instance %s: %s"
          [inst.name, o.socatResult.fail_reason]),
         [Event.runShell (powerdownCommand inst.name)])
      else if !(o.afterSocat.alive pid) then
        (.ok (), [Event.runShell (powerdownCommand inst.name),
                  Event.removeFile pid_file])
      else
        (.ok (), [Event.runShell (powerdownCommand inst.name)])
  else
    if !(sys.alive pid) then
      (.ok (), [Event.removeFile pid_file])
    else
      (.ok (), [])

/-- `KVMHypervisor.RebootInstance` (lines 277-285).  The source body is
`self.StopInstance(instance)` followed by `self.StartInstance(instance)`.
`StartInstance` is declared as
`def StartInstance(self, instance, block_devices, extra_args)`, so the second
call supplies 2 of the 4 required positional arguments; in Python the call
raises `TypeError: StartInstance() takes exactly 4 arguments (2 given)`
during argument binding, before the method body can run — there is no
`block_devices` value in scope in `RebootInstance` at all. -/
def RebootInstance (sys : Sys) (o : StopOracle) (inst : Instance) :
    Except PyErr Unit × List Event :=
  match StopInstance sys o inst false with
  | (.error e, ev) => (.error e, ev)
  | (.ok _, ev) => (.error (pyArityError "StartInstance" 4 2), ev)

/-- A dynamically-typed Python value as used for the `memory` and `vcpus`
locals of `GetInstanceInfo`: they are initialised to the integer `0` and may
be overwritten with a raw command-line string. -/
inductive PyVal where
  | int (n : Int)
  | str (s : String)
  deriving DecidableEq

/-- The flag-scanning `while` loop of `GetInstanceInfo` (lines 148-154): pop
arguments off the front of the list; after a `-m` (resp. `-smp`) flag, pop
the next argument as the raw memory (resp. vcpus) value.  A pop from the
empty list is a Python `IndexError`, embedded as `none`. -/
def scanArgs : List String → PyVal → PyVal → Option (PyVal × PyVal)
  | [], memory, vcpus => some (memory, vcpus)
  | arg :: rest, memory, vcpus =>
    if arg = "-m" then
      match rest with
      | [] => none
      | x :: rest2 => scanArgs rest2 (.str x) vcpus
    else if arg = "-smp" then
      match rest with
      | [] => none
      | x :: rest2 => scanArgs rest2 memory (.str x)
    else scanArgs rest memory vcpus

/-- The tuple `(name, id, memory, vcpus, stat, times)` that `GetInstanceInfo`
returns. -/
structure InstInfo where
  name : String
  id : Int
  memory : PyVal
  vcpus : PyVal
  stat : String
  times : String
  deriving DecidableEq

/-- Worker for `splitChar`: accumulate the current (reversed) field. -/
def splitCharAux (sep : Char) : List Char → List Char → List String
  | [], acc => [String.mk acc.reverse]
  | c :: cs, acc =>
    if c = sep then String.mk acc.reverse :: splitCharAux sep cs []
    else splitCharAux sep cs (c :: acc)

/-- Python `s.split(sep)` for a one-character separator: splits at every
occurrence and keeps empty fields. -/
def splitChar (sep : Char) (s : String) : List String :=
  splitCharAux sep s.data []

/-- Split a `/proc/<pid>/cmdline` string on NUL bytes, as
`cmdline.split('\x00')` does. -/
def pySplitNull (s : String) : List String := splitChar (Char.ofNat 0) s

/-- `KVMHypervisor.GetInstanceInfo` (lines 119-156).  `cmdlines pid` is the
outcome of reading `/proc/<pid>/cmdline` (`Sum.inl err` embeds an `IOError`).
Returns `.ok none` for the Python `None` of a non-live instance. -/
def GetInstanceInfo (sys : Sys) (cmdlines : Int → Sum String String)
    (instance_name : String) : Except PyErr (Option InstInfo) :=
  let pidfile := pidPath instance_name
  let pid := sys.readPid pidfile
  if !(sys.alive pid) then .ok none
  else
    match cmdlines pid with
    | .inl err =>
      .error (pyRaiseHV "Failed to list instance %s: %s" [instance_name, err])
    | .inr cmdline =>
      match scanArgs (pySplitNull cmdline) (.int 0) (.int 0) with
      | none => .error .indexError
      | some (memory, vcpus) =>
        .ok (some ⟨instance_name, pid, memory, vcpus, "---b-", "0"⟩)

/-- POSIX `os.path.isabs`: the path begins with a slash. -/
def isabs (p : String) : Bool :=
  match p.data with
  | '/' :: _ => true
  | _ => false

/-- Modelled from the spec: `hv_base.BaseHypervisor.CheckParameterSyntax`,
invoked by the `super(...)` call on line 368, is not under `src/`.  Section
4.6 of the spec describes the syntax phase as consisting exactly of the
kernel-path and initrd-path checks that the subclass itself performs, so the
superclass step is modelled as a no-op. -/
def base_CheckParameterSyntax (hvparams : HvParams) : Except PyErr Unit :=
  .ok ()

/-- `KVMHypervisor.CheckParameterSyntax` (lines 356-379): host-independent
validation.  Performs no filesystem reads at all (note the absence of any
filesystem argument). -/
def CheckParameterSyntax (hvparams : HvParams) : Except PyErr Unit :=
  match base_CheckParameterSyntax hvparams with
  | .error e => .error e
  | .ok () =>
    if hvparams.kernel_path = "" then
      .error (.hypervisorError "Need a kernel for the instance")
    else if !(isabs hvparams.kernel_path) then
      .error (.hypervisorError "The kernel path must an absolute path")
    else if hvparams.initrd_path ≠ "" && !(isabs hvparams.initrd_path) then
      .error (.hypervisorError "The initrd path must an absolute path, if defined")
    else .ok ()

/-- Modelled from the spec: `hv_base.BaseHypervisor.ValidateParameters`,
invoked by the `super(...)` call on line 388, is not under `src/`.  Section
4.6 describes the runtime phase as consisting exactly of the two
file-existence checks the subclass performs, so the superclass step is
modelled as a no-op. -/
def base_ValidateParameters (hvparams : HvParams) : Except PyErr Unit :=
  .ok ()

/-- `KVMHypervisor.ValidateParameters` (lines 381-397): host-dependent
validation; `isfile` is the host's `os.path.isfile`. -/
def ValidateParameters (isfile : String → Bool) (hvparams : HvParams) :
    Except PyErr Unit :=
  match base_ValidateParameters hvparams with
  | .error e => .error e
  | .ok () =>
    if !(isfile hvparams.kernel_path) then
      .error (pyRaiseHV "Instance kernel '%s' not found or not a file"
        [hvparams.kernel_path])
    else if hvparams.initrd_path ≠ "" && !(isfile hvparams.initrd_path) then
      .error (pyRaiseHV "Instance initrd '%s' not found or not a file"
        [hvparams.initrd_path])
    else .ok ()

/-- Worker for `pySplitColon1`: once the first colon is found, the rest of
the line is a single field. -/
def splitColon1Aux : List Char → List Char → List String
  | [], acc => [String.mk acc.reverse]
  | c :: cs, acc =>
    if c = ':' then [String.mk acc.reverse, String.mk cs]
    else splitColon1Aux cs (c :: acc)

/-- Python `line.split(":", 1)`: split on the first colon only. -/
def pySplitColon1 (line : String) : List String :=
  splitColon1Aux line.data []

/-- Worker for `pySplitWs`. -/
def splitWsAux : List Char → List Char → List String
  | [], acc => if acc.isEmpty then [] else [String.mk acc.reverse]
  | c :: cs, acc =>
    if c.isWhitespace then
      if acc.isEmpty then splitWsAux cs []
      else String.mk acc.reverse :: splitWsAux cs []
    else splitWsAux cs (c :: acc)

/-- Python `s.split()` (no separator): split on whitespace runs, discarding
empty fields. -/
def pySplitWs (s : String) : List String := splitWsAux s.data []

/-- Python `s.strip()`: remove leading and trailing whitespace. -/
def pyStrip (s : String) : String :=
  String.mk (((s.data.dropWhile Char.isWhitespace).reverse.dropWhile
    Char.isWhitespace).reverse)

/-- Accumulate decimal digits; any non-digit character is a `ValueError`. -/
def digitsToNat : List Char → Nat → Option Nat
  | [], acc => some acc
  | c :: cs, acc =>
    if c.isDigit then digitsToNat cs (acc * 10 + (c.toNat - 48)) else none

/-- Python `int(s)` on a decimal string (an optional minus sign followed by
at least one digit, the only shapes occurring in `/proc` data), `none`
embedding `ValueError`. -/
def pyInt (s : String) : Option Int :=
  match s.data with
  | [] => none
  | '-' :: cs =>
    match cs with
    | [] => none
    | _ => (digitsToNat cs 0).map (fun n => -(n : Int))
  | cs => (digitsToNat cs 0).map (fun n => (n : Int))

/-- Python 2 `/` on ints is floor division. -/
def pyFloorDiv (a b : Int) : Int := Int.fdiv a b

/-- Assignment `d[k] = v` on a Python dict, embedded as an insertion-ordered
association list. -/
def dictSet (d : List (String × Int)) (k : String) (v : Int) :
    List (String × Int) :=
  if d.any (fun p => p.1 == k) then
    d.map (fun p => if p.1 == k then (k, v) else p)
  else d ++ [(k, v)]

/-- The per-line body of the `/proc/meminfo` loop of `GetNodeInfo`
(lines 311-322), acting on the accumulator `(result, sum_free)`.
`int(val.split()[0])` can raise `IndexError` (empty value) or `ValueError`
(non-numeric token); both are embedded as errors. -/
def memStep (acc : List (String × Int) × Int) (line : String) :
    Except PyErr (List (String × Int) × Int) :=
  match pySplitColon1 line with
  | k :: v :: _ =>
    let key := pyStrip k
    let val := pyStrip v
    if key = "MemTotal" then
      match pySplitWs val with
      | [] => .error .indexError
      | t :: _ =>
        match pyInt t with
        | none => .error .valueError
        | some n => .ok (dictSet acc.1 "memory_total" (pyFloorDiv n 1024), acc.2)
    else if key = "MemFree" ∨ key = "Buffers" ∨ key = "Cached" then
      match pySplitWs val with
      | [] => .error .indexError
      | t :: _ =>
        match pyInt t with
        | none => .error .valueError
        | some n => .ok (acc.1, acc.2 + pyFloorDiv n 1024)
    else if key = "Active" then
      match pySplitWs val with
      | [] => .error .indexError
      | t :: _ =>
        match pyInt t with
        | none => .error .valueError
        | some n => .ok (dictSet acc.1 "memory_dom0" (pyFloorDiv n 1024), acc.2)
    else .ok acc
  | _ => .ok acc

/-- The `/proc/meminfo` loop of `GetNodeInfo`, line by line. -/
def memFold (acc : List (String × Int) × Int) :
    List String → Except PyErr (List (String × Int) × Int)
  | [] => .ok acc
  | line :: rest =>
    match memStep acc line with
    | .error e => .error e
    | .ok acc2 => memFold acc2 rest

/-- Drop leading whitespace characters (regex `\s*`). -/
def skipWs : List Char → List Char
  | [] => []
  | c :: cs => if c.isWhitespace then skipWs cs else c :: cs

/-- Match the remainder of the regex `^processor\s*:\s*[0-9]+\s*$` after the
literal `processor` has been consumed. -/
def procTail (cs : List Char) : Bool :=
  match skipWs cs with
  | ':' :: cs2 =>
    let cs3 := skipWs cs2
    let digits := cs3.takeWhile Char.isDigit
    !digits.isEmpty && (skipWs (cs3.dropWhile Char.isDigit)).isEmpty
  | _ => false

/-- Whether one line of `/proc/cpuinfo` matches
`(?m)^processor\s*:\s*[0-9]+\s*$` (line 329). -/
def isProcessorLine (l : String) : Bool :=
  l.data.take 9 = "processor".data && procTail (l.data.drop 9)

/-- The number of matches of the multiline regex over the whole `/proc/cpuinfo`
content equals the number of newline-separated lines matching it. -/
def countProcessorLines (content : String) : Nat :=
  ((splitChar '\n' content).filter isProcessorLine).length

/-- `KVMHypervisor.GetNodeInfo` (lines 287-337).  `meminfo` is the outcome of
`file("/proc/meminfo").readlines()` (`Sum.inl err` embeds the `IOError`
branch) and `cpuinfo` the outcome of reading `/proc/cpuinfo`.  Keys enter the
result dict in source order: `memory_total` / `memory_dom0` during the loop,
`memory_free` after it, `cpu_total` last. -/
def GetNodeInfo (meminfo : Sum String (List String))
    (cpuinfo : Sum String String) : Except PyErr (List (String × Int)) :=
  match meminfo with
  | .inl err => .error (pyRaiseHV "Failed to list node info: %s" [err])
  | .inr data =>
    match memFold ([], 0) data with
    | .error e => .error e
    | .ok (result, sum_free) =>
      let result := dictSet result "memory_free" sum_free
      match cpuinfo with
      | .inl err => .error (pyRaiseHV "Failed to list node info: %s" [err])
      | .inr content =>
        .ok (dictSet result "cpu_total" (Int.ofNat (countProcessorLines content)))

/-! Concrete fixtures used by the closed theorems and witnesses below. -/

/-- An OS state with no live process and no PID files. -/
def deadSys : Sys := { readPid := fun _ => 0, alive := fun _ => false }

/-- An OS state in which instance `web1` runs as PID 42. -/
def web1Sys : Sys :=
  { readPid := fun p => if p = pidPath "web1" then 42 else 0,
    alive := fun pid => pid == 42 }

/-- An OS state in which instance `web2` runs as PID 4242. -/
def web2Sys : Sys :=
  { readPid := fun p => if p = pidPath "web2" then 4242 else 0,
    alive := fun pid => pid == 4242 }

/-- A successful `utils.RunCmd` result. -/
def okCmd : CmdResult := { failed := false, fail_reason := "", output := "" }

/-- A failed `utils.RunCmd` result. -/
def failedCmd : CmdResult :=
  { failed := true, fail_reason := "exited with exit code 1", output := "" }

/-- Deterministic fresh temporary names for `tempfile.mkstemp`. -/
def mkTemp : Nat → String := fun i => "/tmp/tmpnet" ++ toString i

/-- Instance `web1` with ACPI disabled and no NICs. -/
def web1NoAcpi : Instance :=
  { name := "web1", memory := "128", vcpus := "1",
    hvparams := { kernel_path := "/boot/vmlinuz-kvmU", initrd_path := "",
                  acpi := false },
    nics := [] }

/-- Instance `web1` with ACPI enabled and no NICs. -/
def web1Acpi : Instance :=
  { name := "web1", memory := "128", vcpus := "1",
    hvparams := { kernel_path := "/boot/vmlinuz-kvmU", initrd_path := "",
                  acpi := true },
    nics := [] }

/-- Instance `web2` whose kernel path is relative (malformed). -/
def badKernelInst : Instance :=
  { name := "web2", memory := "256", vcpus := "2",
    hvparams := { kernel_path := "vmlinuz", initrd_path := "", acpi := true },
    nics := [] }

/-- Stop oracle: the kill succeeds, the powerdown command would succeed. -/
def cleanStopOracle : StopOracle :=
  { afterKill := deadSys, socatResult := okCmd, afterSocat := deadSys }

/-- Stop oracle: the powerdown command fails to be delivered and the guest
keeps running. -/
def failSocatOracle : StopOracle :=
  { afterKill := deadSys, socatResult := failedCmd, afterSocat := web1Sys }

/-- Start oracle: the launcher reports success but the post-launch liveness
re-check finds no live process (daemonization race / early crash). -/
def vanishOracle : StartOracle :=
  { tempName := mkTemp, runResult := okCmd, afterRun := deadSys }

/-- Start oracle for `web2`: the launcher succeeds and the process is live
afterwards. -/
def web2StartOracle : StartOracle :=
  { tempName := mkTemp, runResult := okCmd, afterRun := web2Sys }

/-- A `/proc/meminfo` excerpt realising the spec's worked example: total
memory 4096 MiB, free+buffers+cached summing to 1024 MiB, active 1024 MiB. -/
def meminfoExample : List String :=
  ["MemTotal:        4194304 kB",
   "MemFree:          524288 kB",
   "Buffers:          262144 kB",
   "Cached:           262144 kB",
   "Active:          1048576 kB"]

/-- A `/proc/cpuinfo` excerpt with one logical processor. -/
def cpuinfoExample : String := "processor\t: 0\nvendor_id\t: GenuineIntel\n"

/-- Number of occurrences of a token in an argument vector. -/
def countTok (t : String) : List String → Nat
  | [] => 0
  | a :: l => (if a = t then 1 else 0) + countTok t l

/-- Instance `web1` with two NICs (the spec's worked example shape). -/
def twoNicInst : Instance :=
  { name := "web1", memory := "128", vcpus := "1",
    hvparams := { kernel_path := "/boot/vmlinuz-kvmU", initrd_path := "",
                  acpi := true },
    nics := [{ mac := "aa:00:00:00:00:01", ip := "192.0.2.1", bridge := "br0" },
             { mac := "aa:00:00:00:00:02", ip := "192.0.2.2", bridge := "br0" }] }

/-- Two block devices, the first of which is the boot device. -/
def twoBds : List BlockDev :=
  [{ dev_path := "/dev/drbd0" }, { dev_path := "/dev/drbd1" }]

/-- Start oracle for `web1`: launcher succeeds, process live afterwards. -/
def c8Oracle : StartOracle :=
  { tempName := mkTemp, runResult := okCmd, afterRun := web1Sys }

/-- A `/proc/<pid>/cmdline` content without `-m` or `-smp` flags. -/
def c10Cmdline : String := "/usr/bin/kvm\x00-daemonize\x00"

/-- The tuple `GetInstanceInfo` returns for `web1` on `c10Cmdline`. -/
def c10Info : InstInfo :=
  { name := "web1", id := 42, memory := .int 0, vcpus := .int 0,
    stat := "---b-", times := "0" }

/-! Helper lemmas about the raise-site message formatting. -/

theorem pyRaiseHV_stop_msg (a b : String) :
    pyRaiseHV "Failed to stop instance %s: %s" [a, b] =
      .hypervisorError ("Failed to stop instance " ++ a ++ ": " ++ b) := by
  simp only [pyRaiseHV, pyFormat, pyFormatAux]
  congr 1
  apply String.ext
  simp [String.data_append]

theorem pyRaiseHV_start_msg (a b : String) :
    pyRaiseHV "Failed to start instance %s: %s" [a, b] =
      .hypervisorError ("Failed to start instance " ++ a ++ ": " ++ b) := by
  simp only [pyRaiseHV, pyFormat, pyFormatAux]
  congr 1
  apply String.ext
  simp [String.data_append]

/-- The post-launch re-check raise site applies a two-hole format to a single
argument, so for every instance name it produces a `TypeError`, not a
`HypervisorError`. -/
theorem pyRaiseHV_postcheck_typeError (a : String) :
    pyRaiseHV "Failed to start instance %s: %s" [a] =
      .typeError "not enough arguments for format string" := rfl

/-- C1.  The spec defines `Reboot(instance)` as `Stop` followed by `Start` with
the same instance definition, after which the instance is running again.
The source's `RebootInstance` indeed calls `self.StopInstance(instance)` and
then `self.StartInstance(instance)` — but `StartInstance` requires
`(self, instance, block_devices, extra_args)`, so the second call raises
`TypeError` during argument binding and the instance is never started again.
The spec is clearly the intent (the body is literally a stop followed by a
start attempt) and the code a slip, hence a code bug.  The theorem evaluates
`RebootInstance` at a live instance: the stop phase runs (kill of PID 42,
removal of the PID file), then the `TypeError` surfaces; the event trace
contains no `runCmd` launch, so the instance is left stopped, not running.
-/
theorem rebootInstance_raises_typeError :
    RebootInstance web1Sys cleanStopOracle web1NoAcpi =
      (.error (.typeError "StartInstance() takes exactly 4 arguments (2 given)"),
       [Event.kill 42, Event.removeFile (pidPath "web1")]) := rfl

/-- C2.  When the launch subprocess reports success but the post-launch PID-file
re-check finds no live process, the source reaches
`raise errors.HypervisorError("Failed to start instance %s: %s" % (instance.name))`
(lines 249-250).  The format has two `%s` holes but is applied to the single
string `instance.name`, so message construction raises
`TypeError: not enough arguments for format string` and the intended
`HypervisorError` (the spec's `LaunchFailed`, with instance context) is never
raised.  The claim matches the evident intent of the raise statement; the
code slips on the format arity, hence a code bug.
-/
theorem startInstance_postcheck_raises_typeError :
    StartInstance deadSys vanishOracle web1Acpi [{ dev_path := "/dev/drbd0" }] none =
      (.error (.typeError "not enough arguments for format string"),
       [Event.runCmd (buildKvmCmd web1Acpi [{ dev_path := "/dev/drbd0" }] mkTemp)]) :=
  rfl

/-- C3.  Graceful stop (live instance, ACPI enabled, `force = false`): when the
powerdown command delivery fails, `StopInstance` raises a `HypervisorError`
(the spec's `GracefulShutdownFailed`) carrying the failure reason, and the
event trace shows the driver performed exactly the one shell command — no
`kill` and no PID-file removal, so the failure is not downgraded to a forced
kill and the process and PID file are left untouched by the driver.
-/
theorem stopInstance_graceful_failure_no_kill (sys : Sys) (o : StopOracle)
    (inst : Instance)
    (hpid : 0 < sys.readPid (pidPath inst.name))
    (halive : sys.alive (sys.readPid (pidPath inst.name)) = true)
    (hacpi : inst.hvparams.acpi = true)
    (hfail : o.socatResult.failed = true) :
    StopInstance sys o inst false =
      (.error (.hypervisorError ("Failed to stop instance " ++ inst.name ++
         ": " ++ o.socatResult.fail_reason)),
       [Event.runShell (powerdownCommand inst.name)]) := by
  simp [StopInstance, hpid, halive, hacpi, hfail, pyRaiseHV_stop_msg]

/-- Witness for C3 at a concrete live instance. -/
theorem stopInstance_graceful_failure_no_kill_witness :
    StopInstance web1Sys failSocatOracle web1Acpi false =
      (.error (.hypervisorError
         ("Failed to stop instance " ++ "web1" ++ ": " ++ "exited with exit code 1")),
       [Event.runShell (powerdownCommand "web1")]) :=
  stopInstance_graceful_failure_no_kill web1Sys failSocatOracle web1Acpi
    (by decide) (by decide) rfl rfl

/-- C4.  Start on an already-live instance: the precondition check at the top of
`StartInstance` raises before anything else happens — the returned event
trace is empty, so no wiring script is created, no launch command is run,
and the driver touches neither the original process nor its PID file.
-/
theorem startInstance_already_running_no_side_effects (sys : Sys)
    (o : StartOracle) (inst : Instance) (bds : List BlockDev)
    (ea : Option String)
    (halive : sys.alive (sys.readPid (pidPath inst.name)) = true) :
    StartInstance sys o inst bds ea =
      (.error (.hypervisorError ("Failed to start instance " ++ inst.name ++
         ": " ++ "already running")), []) := by
  simp [StartInstance, halive, pyRaiseHV_start_msg]

/-- Witness for C4: a second `Start` of the live `web1`. -/
theorem startInstance_already_running_no_side_effects_witness :
    StartInstance web1Sys vanishOracle web1Acpi [] none =
      (.error (.hypervisorError ("Failed to start instance " ++ "web1" ++
         ": " ++ "already running")), []) :=
  startInstance_already_running_no_side_effects web1Sys vanishOracle web1Acpi
    [] none (by decide)

/-- C5, counterexample.  The claim says a malformed (relative) kernel path
prevents the launch subprocess from ever being run by `Start`.  On the code,
`StartInstance` performs no parameter validation: with the relative kernel
path `"vmlinuz"` — which `CheckParameterSyntax` rejects — the launch command
is nevertheless constructed (with `-kernel vmlinuz` in it) and executed.
-/
theorem startInstance_launches_despite_bad_kernel :
    CheckParameterSyntax badKernelInst.hvparams =
      .error (.hypervisorError "The kernel path must an absolute path") ∧
    StartInstance deadSys web2StartOracle badKernelInst [] none =
      (.ok (), [Event.runCmd (buildKvmCmd badKernelInst [] mkTemp)]) ∧
    "vmlinuz" ∈ buildKvmCmd badKernelInst [] mkTemp :=
  ⟨rfl, rfl, by decide⟩

/-- C5, amended.  Parameter validation is a separate entry point
(`CheckParameterSyntax`), not invoked by `StartInstance`; it does reject
every malformed or missing kernel path, so a caller that validates before
starting never reaches the launch — but `Start` called directly attempts the
launch regardless.
-/
theorem checkParameterSyntax_rejects_bad_kernel (hv : HvParams)
    (h : hv.kernel_path = "" ∨ isabs hv.kernel_path = false) :
    ∃ e, CheckParameterSyntax hv = .error e := by
  rcases h with h | h
  · exact ⟨.hypervisorError "Need a kernel for the instance",
      by simp [CheckParameterSyntax, base_CheckParameterSyntax, h]⟩
  · by_cases hk : hv.kernel_path = ""
    · exact ⟨.hypervisorError "Need a kernel for the instance",
        by simp [CheckParameterSyntax, base_CheckParameterSyntax, hk]⟩
    · exact ⟨.hypervisorError "The kernel path must an absolute path",
        by simp [CheckParameterSyntax, base_CheckParameterSyntax, hk, h]⟩

/-- Witness for the amended C5 at the concrete relative path `"vmlinuz"`. -/
theorem checkParameterSyntax_rejects_bad_kernel_witness :
    ∃ e, CheckParameterSyntax badKernelInst.hvparams = .error e :=
  checkParameterSyntax_rejects_bad_kernel _ (Or.inr rfl)

/-- The node-info `IOError` raise formats its message as expected. -/
theorem pyRaiseHV_nodeinfo_msg (err : String) :
    pyRaiseHV "Failed to list node info: %s" [err] =
      .hypervisorError ("Failed to list node info: " ++ err) := by
  simp only [pyRaiseHV, pyFormat, pyFormatAux]
  congr 1
  apply String.ext
  simp [String.data_append]

/-- C6, counterexample.  The claim says the node-info mapping has exactly the
keys `memory_total`, `memory_free`, `memory_used`, `cpu_total`.  On the
spec's own worked example the code produces the key `memory_dom0` (from the
`Active` counter) and no `memory_used` key at all.
-/
theorem getNodeInfo_keys_counterexample :
    GetNodeInfo (.inr meminfoExample) (.inr cpuinfoExample) =
      .ok [("memory_total", 4096), ("memory_dom0", 1024),
           ("memory_free", 1024), ("cpu_total", 1)] ∧
    (GetNodeInfo (.inr meminfoExample) (.inr cpuinfoExample)).map
        (List.map Prod.fst) =
      .ok ["memory_total", "memory_dom0", "memory_free", "cpu_total"] :=
  ⟨rfl, rfl⟩

/-- C6, amended: the used/active counter is reported under the key
`memory_dom0`, not `memory_used`.  On the worked example the code yields
`memory_total = 4096` and `memory_free = 1024` (sum of free, buffer-cache
and page-cache counters, in whole megabytes) together with
`memory_dom0 = 1024` and `cpu_total = 1`; and any I/O failure reading either
accounting source raises `HypervisorError` (the spec's
`NodeInfoUnavailable`) instead of returning zero values.
-/
theorem getNodeInfo_amended :
    (GetNodeInfo (.inr meminfoExample) (.inr cpuinfoExample) =
      .ok [("memory_total", 4096), ("memory_dom0", 1024),
           ("memory_free", 1024), ("cpu_total", 1)]) ∧
    (∀ err cpu, GetNodeInfo (.inl err) cpu =
      .error (.hypervisorError ("Failed to list node info: " ++ err))) ∧
    (∀ err, GetNodeInfo (.inr meminfoExample) (.inl err) =
      .error (.hypervisorError ("Failed to list node info: " ++ err))) := by
  refine ⟨rfl, ?_, ?_⟩
  · intro err cpu
    have h : GetNodeInfo (.inl err) cpu =
        .error (pyRaiseHV "Failed to list node info: %s" [err]) := rfl
    rw [h, pyRaiseHV_nodeinfo_msg]
  · intro err
    have h : GetNodeInfo (.inr meminfoExample) (.inl err) =
        .error (pyRaiseHV "Failed to list node info: %s" [err]) := rfl
    rw [h, pyRaiseHV_nodeinfo_msg]

/-! Helper lemmas for counting and characterising launch-argv segments. -/

theorem countTok_append (t : String) (l1 l2 : List String) :
    countTok t (l1 ++ l2) = countTok t l1 + countTok t l2 := by
  induction l1 with
  | nil => simp [countTok]
  | cons a l ih => simp [countTok, ih]; omega

theorem str_ne_of_head {a b : String} {c d : Char}
    (ha : a.data.head? = some c) (hb : b.data.head? = some d) (hcd : c ≠ d) :
    a ≠ b := by
  intro h
  subst h
  rw [ha] at hb
  injection hb with h2
  exact hcd h2

theorem nicVal_ne_net (m : String) :
    ("nic,macaddr=" ++ m ++ ",model=virtio") ≠ "-net" :=
  str_ne_of_head rfl rfl (by decide)

theorem nicVal_ne_drive (m : String) :
    ("nic,macaddr=" ++ m ++ ",model=virtio") ≠ "-drive" :=
  str_ne_of_head rfl rfl (by decide)

theorem tapVal_ne_net (s : String) : ("tap,script=" ++ s) ≠ "-net" :=
  str_ne_of_head rfl rfl (by decide)

theorem tapVal_ne_drive (s : String) : ("tap,script=" ++ s) ≠ "-drive" :=
  str_ne_of_head rfl rfl (by decide)

theorem pidPath_ne_net (n : String) : pidPath n ≠ "-net" :=
  str_ne_of_head rfl rfl (by decide)

theorem countTok_netGo_net (tmp : Nat → String) (nics : List Nic) (seq : Nat) :
    countTok "-net" (netGo tmp nics seq).1 = 2 * nics.length := by
  induction nics generalizing seq with
  | nil => simp [netGo, countTok]
  | cons nic rest ih =>
    simp [netGo, countTok, ih, nicVal_ne_net nic.mac, tapVal_ne_net (tmp seq)]
    omega

theorem countTok_netGo_drive (tmp : Nat → String) (nics : List Nic) (seq : Nat) :
    countTok "-drive" (netGo tmp nics seq).1 = 0 := by
  induction nics generalizing seq with
  | nil => simp [netGo, countTok]
  | cons nic rest ih =>
    simp [netGo, countTok, ih, nicVal_ne_drive nic.mac, tapVal_ne_drive (tmp seq)]

theorem countTok_driveArgs_drive (b : Bool) (bds : List BlockDev) :
    countTok "-drive" (driveArgs b bds) = bds.length := by
  induction bds generalizing b with
  | nil => simp [driveArgs, countTok]
  | cons bd rest ih =>
    have hf : ("file=" ++ bd.dev_path ++ ",format=raw,if=virtio" ++
        (if b then ",boot=on" else "")) ≠ "-drive" :=
      str_ne_of_head rfl rfl (by decide)
    simp [driveArgs, countTok, ih, hf]
    omega

theorem countTok_driveArgs_net (b : Bool) (bds : List BlockDev) :
    countTok "-net" (driveArgs b bds) = 0 := by
  induction bds generalizing b with
  | nil => simp [driveArgs, countTok]
  | cons bd rest ih =>
    have hf : ("file=" ++ bd.dev_path ++ ",format=raw,if=virtio" ++
        (if b then ",boot=on" else "")) ≠ "-net" :=
      str_ne_of_head rfl rfl (by decide)
    simp [driveArgs, countTok, ih, hf]

theorem netGo_args_eq (tmp : Nat → String) (nics : List Nic) (seq : Nat) :
    (netGo tmp nics seq).1 =
      ((List.enumFrom seq nics).map (fun p =>
        ["-net", "nic,macaddr=" ++ p.2.mac ++ ",model=virtio",
         "-net", "tap,script=" ++ tmp p.1])).flatten := by
  induction nics generalizing seq with
  | nil => simp [netGo]
  | cons nic rest ih => simp [netGo, List.enumFrom, ih]

theorem netGo_files_eq (tmp : Nat → String) (nics : List Nic) (seq : Nat) :
    (netGo tmp nics seq).2 = (List.range' seq nics.length).map tmp := by
  induction nics generalizing seq with
  | nil => simp [netGo]
  | cons nic rest ih => simp [netGo, List.range', ih]

theorem buildNetArgsFiles_files_eq (nics : List Nic) (tmp : Nat → String) :
    (buildNetArgsFiles nics tmp).2 = (List.range' 0 nics.length).map tmp := by
  cases nics with
  | nil => rfl
  | cons n ns => simp [buildNetArgsFiles, netGo_files_eq]

theorem strAppend_empty (s : String) : s ++ "" = s := by
  apply String.ext
  simp [String.data_append]

theorem driveArgs_false_eq (bds : List BlockDev) :
    driveArgs false bds = (bds.map (fun bd =>
      ["-drive", "file=" ++ bd.dev_path ++ ",format=raw,if=virtio"])).flatten := by
  induction bds with
  | nil => simp [driveArgs]
  | cons bd rest ih => simp [driveArgs, ih, strAppend_empty]

theorem driveConcat (p : String) :
    "file=" ++ p ++ ",format=raw,if=virtio" ++ ",boot=on" =
      "file=" ++ p ++ ",format=raw,if=virtio,boot=on" := by
  apply String.ext
  simp [String.data_append]

theorem driveArgs_true_cons (bd : BlockDev) (rest : List BlockDev) :
    driveArgs true (bd :: rest) =
      ["-drive", "file=" ++ bd.dev_path ++ ",format=raw,if=virtio,boot=on"] ++
        driveArgs false rest := by
  simp [driveArgs, driveConcat]

/-- C7.  The launch specification built by `Start`: counting occurrences of
the `-net` (resp. `-drive`) flag in the argv shows one `-net none` directive
for an empty NIC list, exactly `2 * N` network directives (N front-end/tap
pairs) otherwise, and exactly `M` disk directives for `M` block devices.
The two characterisation conjuncts exhibit the shape and order: the network
segment is one `(-net nic..., -net tap...)` pair per NIC in NIC-list order
(the seq-th pair bound to the seq-th wiring script), and the disk segment
marks exactly the first device with `,boot=on`.  The token-disambiguation
hypotheses say only that the opaque instance fields are not themselves the
literal flag strings. -/
theorem buildKvmCmd_launch_directives (inst : Instance) (bds : List BlockDev)
    (tmp : Nat → String)
    (hnet : "-net" ∉ [inst.memory, inst.vcpus, inst.name,
      inst.hvparams.kernel_path, inst.hvparams.initrd_path])
    (hdrive : "-drive" ∉ [inst.memory, inst.vcpus, inst.name,
      inst.hvparams.kernel_path, inst.hvparams.initrd_path]) :
    countTok "-net" (buildKvmCmd inst bds tmp) =
      (if inst.nics.isEmpty then 1 else 2 * inst.nics.length) ∧
    countTok "-drive" (buildKvmCmd inst bds tmp) = bds.length ∧
    (buildNetArgsFiles inst.nics tmp).1 =
      (if inst.nics.isEmpty then ["-net", "none"]
       else ((List.enumFrom 0 inst.nics).map (fun p =>
         ["-net", "nic,macaddr=" ++ p.2.mac ++ ",model=virtio",
          "-net", "tap,script=" ++ tmp p.1])).flatten) ∧
    driveArgs true bds =
      (match bds with
       | [] => []
       | bd :: rest =>
         ["-drive", "file=" ++ bd.dev_path ++ ",format=raw,if=virtio,boot=on"] ++
           (rest.map (fun b2 =>
             ["-drive", "file=" ++ b2.dev_path ++ ",format=raw,if=virtio"])).flatten) := by
  simp only [List.mem_cons, List.not_mem_nil, not_or, or_false] at hnet hdrive
  obtain ⟨hm1, hv1, hn1, hk1, hi1⟩ := hnet
  obtain ⟨hm2, hv2, hn2, hk2, hi2⟩ := hdrive
  have hpid1 := pidPath_ne_net inst.name
  have hpid2 : pidPath inst.name ≠ "-drive" := str_ne_of_head rfl rfl (by decide)
  have hmon1 : ("unix:" ++ (CTRL_DIR ++ "/" ++ inst.name) ++
      ".monitor,server,nowait") ≠ "-net" := str_ne_of_head rfl rfl (by decide)
  have hmon2 : ("unix:" ++ (CTRL_DIR ++ "/" ++ inst.name) ++
      ".monitor,server,nowait") ≠ "-drive" := str_ne_of_head rfl rfl (by decide)
  have hser1 : ("unix:" ++ (CTRL_DIR ++ "/" ++ inst.name) ++
      ".serial,server,nowait") ≠ "-net" := str_ne_of_head rfl rfl (by decide)
  have hser2 : ("unix:" ++ (CTRL_DIR ++ "/" ++ inst.name) ++
      ".serial,server,nowait") ≠ "-drive" := str_ne_of_head rfl rfl (by decide)
  refine ⟨?_, ?_, ?_, ?_⟩
  · simp [buildKvmCmd, countTok_append, countTok, buildNetArgsFiles,
      countTok_netGo_net, countTok_driveArgs_net, apply_ite (countTok "-net"),
      Ne.symm hm1, Ne.symm hv1, Ne.symm hn1, Ne.symm hk1, Ne.symm hi1,
      hpid1, hmon1, hser1, KVM_PATH]
    split <;> simp [countTok, countTok_netGo_net]
  · simp [buildKvmCmd, countTok_append, countTok, buildNetArgsFiles,
      countTok_netGo_drive, countTok_driveArgs_drive, apply_ite (countTok "-drive"),
      Ne.symm hm2, Ne.symm hv2, Ne.symm hn2, Ne.symm hk2, Ne.symm hi2,
      hpid2, hmon2, hser2, KVM_PATH]
    split <;> simp [countTok, countTok_netGo_drive]
  · by_cases h : inst.nics.isEmpty <;> simp [buildNetArgsFiles, h, netGo_args_eq]
  · cases bds with
    | nil => simp [driveArgs]
    | cons bd rest => rw [driveArgs_true_cons, driveArgs_false_eq]

/-- Witness for C7: `web1` with 2 NICs and 2 block devices yields 4 `-net`
tokens (2 directive pairs) and 2 `-drive` tokens. -/
theorem buildKvmCmd_launch_directives_witness :
    ("-net" ∉ [twoNicInst.memory, twoNicInst.vcpus, twoNicInst.name,
      twoNicInst.hvparams.kernel_path, twoNicInst.hvparams.initrd_path]) ∧
    countTok "-net" (buildKvmCmd twoNicInst twoBds mkTemp) = 4 ∧
    countTok "-drive" (buildKvmCmd twoNicInst twoBds mkTemp) = 2 :=
  ⟨by decide,
   (buildKvmCmd_launch_directives twoNicInst twoBds mkTemp (by decide)
     (by decide)).1,
   (buildKvmCmd_launch_directives twoNicInst twoBds mkTemp (by decide)
     (by decide)).2.1⟩

/-- C8.  Successful `Start` of an instance with N NICs: the event trace is
exactly N wiring-script creations, then the launch command, then the removal
of the same N script files — so all N scripts are created before the launch
is executed and none of them remains after `Start` returns.  The second
conjunct makes the count explicit: the `temp_files` list has length N. -/
theorem startInstance_scripts_lifecycle (sys : Sys) (o : StartOracle)
    (inst : Instance) (bds : List BlockDev) (ea : Option String)
    (hnot : sys.alive (sys.readPid (pidPath inst.name)) = false)
    (hrun : o.runResult.failed = false)
    (halive : o.afterRun.alive (o.afterRun.readPid (pidPath inst.name)) = true) :
    StartInstance sys o inst bds ea =
      (.ok (),
       (((List.range' 0 inst.nics.length).map o.tempName).map Event.writeScript ++
         [Event.runCmd (buildKvmCmd inst bds o.tempName)]) ++
        ((List.range' 0 inst.nics.length).map o.tempName).map Event.removeFile) ∧
    ((buildNetArgsFiles inst.nics o.tempName).2).length = inst.nics.length := by
  constructor
  · simp [StartInstance, hnot, hrun, halive, buildNetArgsFiles_files_eq]
  · simp [buildNetArgsFiles_files_eq]

/-- Witness for C8: starting `web1` with 2 NICs creates scripts
`/tmp/tmpnet0`, `/tmp/tmpnet1` before the launch and removes both after. -/
theorem startInstance_scripts_lifecycle_witness :
    deadSys.alive (deadSys.readPid (pidPath twoNicInst.name)) = false ∧
    StartInstance deadSys c8Oracle twoNicInst twoBds none =
      (.ok (), [Event.writeScript "/tmp/tmpnet0", Event.writeScript "/tmp/tmpnet1",
        Event.runCmd (buildKvmCmd twoNicInst twoBds mkTemp),
        Event.removeFile "/tmp/tmpnet0", Event.removeFile "/tmp/tmpnet1"]) :=
  ⟨rfl,
   (startInstance_scripts_lifecycle deadSys c8Oracle twoNicInst twoBds none
     rfl rfl rfl).1⟩

/-- The runtime-validation kernel raise formats its message as expected. -/
theorem pyRaiseHV_kernel_msg (p : String) :
    pyRaiseHV "Instance kernel '%s' not found or not a file" [p] =
      .hypervisorError ("Instance kernel '" ++ p ++ "' not found or not a file") := by
  simp only [pyRaiseHV, pyFormat, pyFormatAux]
  refine congrArg PyErr.hypervisorError (String.ext ?_)
  simp [String.data_append]

/-- C9.  Two-phase validation.  First conjunct: `CheckParameterSyntax` (which
takes no filesystem input at all, so is independent of file existence) fails
exactly when the kernel path is missing or not absolute, or a given initrd
path is not absolute.  Second conjunct: for an absolute, well-formed kernel
path that is not an existing regular file, the syntax phase succeeds while
`ValidateParameters` fails with the kernel-not-found `HypervisorError` (the
spec's `InvalidParameter`). -/
theorem parameterValidation_two_phase :
    (∀ hv : HvParams, (∃ e, CheckParameterSyntax hv = .error e) ↔
      (hv.kernel_path = "" ∨ isabs hv.kernel_path = false ∨
       (hv.initrd_path ≠ "" ∧ isabs hv.initrd_path = false))) ∧
    (∀ (isfile : String → Bool) (hv : HvParams),
      hv.kernel_path ≠ "" → isabs hv.kernel_path = true →
      (hv.initrd_path = "" ∨ isabs hv.initrd_path = true) →
      isfile hv.kernel_path = false →
      CheckParameterSyntax hv = .ok () ∧
      ValidateParameters isfile hv =
        .error (.hypervisorError ("Instance kernel '" ++ hv.kernel_path ++
          "' not found or not a file"))) := by
  constructor
  · intro hv
    by_cases h1 : hv.kernel_path = ""
    · simp [CheckParameterSyntax, base_CheckParameterSyntax, h1]
    · by_cases h2 : isabs hv.kernel_path
      · by_cases h3 : hv.initrd_path = ""
        · simp [CheckParameterSyntax, base_CheckParameterSyntax, h1, h2, h3]
        · by_cases h4 : isabs hv.initrd_path
          · simp [CheckParameterSyntax, base_CheckParameterSyntax, h1, h2, h3, h4]
          · simp [CheckParameterSyntax, base_CheckParameterSyntax, h1, h2, h3, h4]
      · simp [CheckParameterSyntax, base_CheckParameterSyntax, h1, h2]
  · intro isfile hv h1 h2 h3 h4
    constructor
    · rcases h3 with h3 | h3 <;>
        simp [CheckParameterSyntax, base_CheckParameterSyntax, h1, h2, h3]
    · simp [ValidateParameters, base_ValidateParameters, h4, pyRaiseHV_kernel_msg]

/-- Witness for C9: the relative path `"vmlinuz"` fails the syntax phase; the
absolute path `"/boot/vmlinuz-kvmU"` passes it but fails the runtime phase on
a host where it is not a regular file. -/
theorem parameterValidation_two_phase_witness :
    (∃ e, CheckParameterSyntax badKernelInst.hvparams = .error e) ∧
    (CheckParameterSyntax web1Acpi.hvparams = .ok () ∧
     ValidateParameters (fun _ => false) web1Acpi.hvparams =
       .error (.hypervisorError ("Instance kernel '" ++ "/boot/vmlinuz-kvmU" ++
         "' not found or not a file"))) :=
  ⟨(parameterValidation_two_phase.1 badKernelInst.hvparams).mpr
     (Or.inr (Or.inl rfl)),
   parameterValidation_two_phase.2 (fun _ => false) web1Acpi.hvparams
     (by decide) rfl (Or.inl rfl) rfl⟩

/-! Helper lemmas about the `GetInstanceInfo` flag scan. -/

theorem scanArgs_cons_other (a : String) (l : List String) (m v : PyVal)
    (h1 : a ≠ "-m") (h2 : a ≠ "-smp") :
    scanArgs (a :: l) m v = scanArgs l m v := by
  rw [scanArgs.eq_def]
  simp [h1, h2]

theorem scanArgs_m_absent (args : List String) (m v : PyVal) (r : PyVal × PyVal)
    (hr : scanArgs args m v = some r) (hm : "-m" ∉ args) : r.1 = m := by
  induction args, m, v using scanArgs.induct with
  | case1 m v =>
    simp [scanArgs] at hr
    subst hr
    rfl
  | case2 m v => simp at hm
  | case3 m v x rest2 ih => simp at hm
  | case4 m v h => simp [scanArgs] at hr
  | case5 m v x rest2 h ih =>
    simp [scanArgs] at hr
    simp at hm
    exact ih hr hm.2
  | case6 arg rest m v h1 h2 ih =>
    rw [scanArgs_cons_other arg rest m v h1 h2] at hr
    simp at hm
    exact ih hr hm.2

theorem scanArgs_smp_absent (args : List String) (m v : PyVal) (r : PyVal × PyVal)
    (hr : scanArgs args m v = some r) (hs : "-smp" ∉ args) : r.2 = v := by
  induction args, m, v using scanArgs.induct with
  | case1 m v =>
    simp [scanArgs] at hr
    subst hr
    rfl
  | case2 m v => simp [scanArgs] at hr
  | case3 m v x rest2 ih =>
    simp [scanArgs] at hr
    simp at hs
    exact ih hr hs.2
  | case4 m v h => simp at hs
  | case5 m v x rest2 h ih => simp at hs
  | case6 arg rest m v h1 h2 ih =>
    rw [scanArgs_cons_other arg rest m v h1 h2] at hr
    simp at hs
    exact ih hr hs.2

theorem scanArgs_no_flags (args : List String) (m v : PyVal)
    (hm : "-m" ∉ args) (hs : "-smp" ∉ args) : scanArgs args m v = some (m, v) := by
  induction args with
  | nil => rfl
  | cons a rest ih =>
    simp at hm hs
    rw [scanArgs_cons_other a rest m v (Ne.symm hm.1) (Ne.symm hs.1)]
    exact ih hm.2 hs.2

theorem scanArgs_skip_noflags (pre rest : List String) (m v : PyVal)
    (hm : "-m" ∉ pre) (hs : "-smp" ∉ pre) :
    scanArgs (pre ++ rest) m v = scanArgs rest m v := by
  induction pre with
  | nil => rfl
  | cons a p ih =>
    simp at hm hs
    rw [List.cons_append,
      scanArgs_cons_other a (p ++ rest) m v (Ne.symm hm.1) (Ne.symm hs.1)]
    exact ih hm.2 hs.2

theorem scanArgs_m_present (pre post : List String) (x : String) (m v : PyVal)
    (hm1 : "-m" ∉ pre) (hs1 : "-smp" ∉ pre)
    (hm2 : "-m" ∉ post) (hs2 : "-smp" ∉ post) :
    scanArgs (pre ++ "-m" :: x :: post) m v = some (.str x, v) := by
  rw [scanArgs_skip_noflags pre _ m v hm1 hs1]
  rw [scanArgs.eq_3]
  simp [scanArgs_no_flags post (.str x) v hm2 hs2]

theorem scanArgs_smp_present (pre post : List String) (x : String) (m v : PyVal)
    (hm1 : "-m" ∉ pre) (hs1 : "-smp" ∉ pre)
    (hm2 : "-m" ∉ post) (hs2 : "-smp" ∉ post) :
    scanArgs (pre ++ "-smp" :: x :: post) m v = some (m, .str x) := by
  rw [scanArgs_skip_noflags pre _ m v hm1 hs1]
  rw [scanArgs.eq_3]
  simp [scanArgs_no_flags post m (.str x) hm2 hs2]

/-- C10.  `GetInstanceInfo` on a live instance: every successful return has
the fixed constants `"---b-"` and `"0"` as its status and times fields;
absence of a `-m` (resp. `-smp`) flag in the command line leaves the memory
(resp. vcpus) field at the Python integer `0` rather than failing; and when
the flags are present (with no further flag occurrences around them) the
returned values are the raw unparsed argument strings following the flags —
`PyVal.str`, not integers. -/
theorem getInstanceInfo_flag_scan :
    (∀ (sys : Sys) (cmdlines : Int → Sum String String) (name cmdline : String)
       (info : InstInfo),
       cmdlines (sys.readPid (pidPath name)) = .inr cmdline →
       GetInstanceInfo sys cmdlines name = .ok (some info) →
       info.stat = "---b-" ∧ info.times = "0" ∧
       ("-m" ∉ pySplitNull cmdline → info.memory = .int 0) ∧
       ("-smp" ∉ pySplitNull cmdline → info.vcpus = .int 0)) ∧
    (∀ (pre post : List String) (x : String),
       "-m" ∉ pre → "-smp" ∉ pre → "-m" ∉ post → "-smp" ∉ post →
       scanArgs (pre ++ "-m" :: x :: post) (.int 0) (.int 0) =
         some (.str x, .int 0)) ∧
    (∀ (pre post : List String) (x : String),
       "-m" ∉ pre → "-smp" ∉ pre → "-m" ∉ post → "-smp" ∉ post →
       scanArgs (pre ++ "-smp" :: x :: post) (.int 0) (.int 0) =
         some (.int 0, .str x)) := by
  refine ⟨?_, ?_, ?_⟩
  · intro sys cmdlines name cmdline info hcl hok
    unfold GetInstanceInfo at hok
    dsimp only at hok
    by_cases hal : sys.alive (sys.readPid (pidPath name))
    · rw [hcl] at hok
      simp only [hal, Bool.not_true, Bool.false_eq_true, if_false] at hok
      cases hscan : scanArgs (pySplitNull cmdline) (.int 0) (.int 0) with
      | none => simp [hscan] at hok
      | some p =>
        simp [hscan] at hok
        refine ⟨?_, ?_, ?_, ?_⟩
        · rw [← hok]
        · rw [← hok]
        · intro hm
          rw [← hok]
          exact scanArgs_m_absent _ _ _ _ hscan hm
        · intro hs
          rw [← hok]
          exact scanArgs_smp_absent _ _ _ _ hscan hs
    · simp [hal] at hok
  · intro pre post x h1 h2 h3 h4
    exact scanArgs_m_present pre post x _ _ h1 h2 h3 h4
  · intro pre post x h1 h2 h3 h4
    exact scanArgs_smp_present pre post x _ _ h1 h2 h3 h4

/-- Witness for C10: live `web1` with a command line containing neither `-m`
nor `-smp` yields integer-zero sizing fields with the constant status and
times; and a concrete scan with both flags present returns the raw strings. -/
theorem getInstanceInfo_flag_scan_witness :
    GetInstanceInfo web1Sys (fun _ => Sum.inr c10Cmdline) "web1" =
      .ok (some c10Info) ∧
    (c10Info.stat = "---b-" ∧ c10Info.times = "0" ∧
     c10Info.memory = .int 0 ∧ c10Info.vcpus = .int 0) ∧
    scanArgs (["/usr/bin/kvm"] ++ "-m" :: "128" :: [""]) (.int 0) (.int 0) =
      some (.str "128", .int 0) ∧
    scanArgs (["/usr/bin/kvm"] ++ "-smp" :: "1" :: [""]) (.int 0) (.int 0) =
      some (.int 0, .str "1") := by
  have h := getInstanceInfo_flag_scan
  refine ⟨rfl, ?_, ?_, ?_⟩
  · have h1 := h.1 web1Sys (fun _ => Sum.inr c10Cmdline) "web1" c10Cmdline
      c10Info rfl rfl
    exact ⟨h1.1, h1.2.1, h1.2.2.1 (by decide), h1.2.2.2 (by decide)⟩
  · exact h.2.1 ["/usr/bin/kvm"] [""] "128" (by decide) (by decide)
      (by decide) (by decide)
  · exact h.2.2 ["/usr/bin/kvm"] [""] "1" (by decide) (by decide)
      (by decide) (by decide)

end HvKvm
